import Mathlib

/-!
Verification development for the `drama_collector` repository.

The Python modules under verification are shallowly embedded as Lean
definitions:

* `src/utils/data_validator.py`   — `DataValidator` (drama validation,
  cleaning, quality scoring);
* `src/collectors/multi_source_collector.py` — deduplication and the
  completeness score;
* `src/utils/batch_processor.py`  — batch chunking, per-item error
  capture, job status transitions and `cancel_job`;
* `src/export/data_exporter.py`   — `DataExportManager.export_data`
  record-count bookkeeping;
* `src/orchestrator/drama_orchestrator.py` — the `run_collection_job`
  state machine;
* `src/config/config_manager.py`  — `update_config` / `_validate_config`;
* `src/processors/enhanced_text_processor.py` — `_calculate_dramatic_tension`.

Python floats are modelled by `ℚ` (all arithmetic appearing in the
verified formulas is exact on the inputs involved), Python `datetime`
values are reduced to the booleans / integers the control flow actually
consumes (`end_time` set or not, the current year as a parameter), and
file/network I/O is not modelled: only the in-memory data flow of each
function is embedded.  Python dictionaries holding drama data are
modelled by a record of `Option Value` fields (`none` = key absent).
-/

/-- A Python value as stored in a drama record: `None`, a string, an
`int`, a `float` (modelled by `ℚ`), or a list of strings. -/
inductive Value where
  | vNone : Value
  | vStr : String → Value
  | vInt : Int → Value
  | vFloat : ℚ → Value
  | vList : List String → Value
  deriving Repr, DecidableEq

/-- Python truthiness of a `Value` (`bool(v)`). -/
def Value.truthy : Value → Bool
  | .vNone => false
  | .vStr s => !(s = "")
  | .vInt n => !(n = 0)
  | .vFloat q => !(q = 0)
  | .vList xs => !(xs = [])

/-- The drama-record keys the validator and the collectors touch. -/
inductive DKey where
  | id | title | year | rating | summary | genres | casts | directors
  | episodes_count | tags
  deriving Repr, DecidableEq

/-- A drama record: a Python dict restricted to the keys the embedded
code reads or writes; `none` models an absent key. -/
structure DramaRecord where
  id : Option Value
  title : Option Value
  year : Option Value
  rating : Option Value
  summary : Option Value
  genres : Option Value
  casts : Option Value
  directors : Option Value
  episodes_count : Option Value
  tags : Option Value
  deriving Repr, DecidableEq

/-- The record with every key absent (`{}` in Python). -/
def DramaRecord.empty : DramaRecord :=
  ⟨none, none, none, none, none, none, none, none, none, none⟩

/-- `data.get(field)` — `none` both for an absent key and for a key the
record simply does not carry. -/
def DramaRecord.get : DramaRecord → DKey → Option Value
  | r, .id => r.id
  | r, .title => r.title
  | r, .year => r.year
  | r, .rating => r.rating
  | r, .summary => r.summary
  | r, .genres => r.genres
  | r, .casts => r.casts
  | r, .directors => r.directors
  | r, .episodes_count => r.episodes_count
  | r, .tags => r.tags

/-- `data[field] = v`. -/
def DramaRecord.set : DramaRecord → DKey → Value → DramaRecord
  | r, .id, v => { r with id := some v }
  | r, .title, v => { r with title := some v }
  | r, .year, v => { r with year := some v }
  | r, .rating, v => { r with rating := some v }
  | r, .summary, v => { r with summary := some v }
  | r, .genres, v => { r with genres := some v }
  | r, .casts, v => { r with casts := some v }
  | r, .directors, v => { r with directors := some v }
  | r, .episodes_count, v => { r with episodes_count := some v }
  | r, .tags, v => { r with tags := some v }

/-- Truthiness of `data.get(field)` (an absent key is falsy). -/
def optTruthy : Option Value → Bool
  | none => false
  | some v => v.truthy

/-- Python whitespace as removed by `str.strip()` / matched by `\s`
(the ASCII cases; no input in this development carries exotic Unicode
whitespace). -/
def isPySpace (c : Char) : Bool :=
  c = ' ' || c = '\t' || c = '\n' || c = '\r' || c = '\x0b' || c = '\x0c'

/-- `s.strip()` on the character list of a string. -/
def pyStripList (cs : List Char) : List Char :=
  ((cs.dropWhile isPySpace).reverse.dropWhile isPySpace).reverse

/-- Python `s.strip()`. -/
def pyStrip (s : String) : String := String.mk (pyStripList s.data)

/-- `data.get(field) and str(data[field]).strip()` is truthy: for a
truthy string this additionally requires the string to be non-blank;
for every other truthy value `str(v).strip()` is never empty. -/
def filledField : Option Value → Bool
  | some (.vStr s) => !(pyStrip s = "")
  | v => optTruthy v

namespace DataValidator

/-- `important_fields` of `DataValidator._calculate_completeness`
(src/utils/data_validator.py lines 401-404). -/
def importantFields : List DKey :=
  [.title, .year, .summary, .genres, .rating, .casts, .directors,
   .episodes_count]

/-- `DataValidator._calculate_completeness` (lines 399-409): the
fraction of the eight important fields that are present with a truthy,
non-blank value. -/
def calculateCompleteness (data : DramaRecord) : ℚ :=
  ((importantFields.countP (fun f => filledField (data.get f)) : ℤ) : ℚ) /
    ((importantFields.length : ℤ) : ℚ)

/-- `DataValidator._calculate_quality_score` (lines 382-397): start at
10, subtract 2 per error and 0.5 per warning, scale by
`0.5 + 0.5·completeness`, clamp to `[0, 10]`. -/
def calculateQualityScore (data : DramaRecord)
    (errors warnings : List String) : ℚ :=
  let base : ℚ := 10
  let base := base - (errors.length : ℚ) * 2
  let base := base - (warnings.length : ℚ) * (1/2)
  let base := base * (1/2 + (1/2) * calculateCompleteness data)
  max 0 (min 10 base)

end DataValidator

/-- `clip(x, lo, hi)` as the specification writes it. -/
def clip (x lo hi : ℚ) : ℚ := max lo (min hi x)

/-- Python `s.lower()` (ASCII case mapping; CJK characters are fixed
points, as in Python). -/
def pyLower (s : String) : String := String.mk (s.data.map Char.toLower)

/-- `re.sub(r'\s+', ' ', ·)` — collapse every whitespace run to a single
space.  The boolean records whether the previous character was part of a
whitespace run. -/
def collapseWSAux : Bool → List Char → List Char
  | _, [] => []
  | prevSpace, c :: rest =>
    if isPySpace c then
      if prevSpace then collapseWSAux true rest
      else ' ' :: collapseWSAux true rest
    else c :: collapseWSAux false rest

/-- Collapse whitespace runs (`re.sub(r'\s+', ' ', s)`). -/
def collapseWS (cs : List Char) : List Char := collapseWSAux false cs

/-- Scanner for `re.sub('op.*?cl', '', ·)` (non-greedy, applied left to
right).  The second argument buffers (reversed) the characters of a
candidate match opened by `op`; an unclosed candidate is flushed back
verbatim at the end of input. -/
def stripDelimAux (op cl : Char) : List Char → Option (List Char) → List Char
  | [], none => []
  | [], some buf => buf.reverse
  | c :: rest, none =>
    if c = op then stripDelimAux op cl rest (some [c])
    else c :: stripDelimAux op cl rest none
  | c :: rest, some buf =>
    if c = cl then stripDelimAux op cl rest none
    else stripDelimAux op cl rest (some (c :: buf))

/-- Delete every non-greedy `op...cl` segment (`re.sub(r'【.*?】', '', s)`
and the `[...]` analogue in `DataValidator._clean_title`). -/
def stripDelim (op cl : Char) (cs : List Char) : List Char :=
  stripDelimAux op cl cs none

/-- Scanner for `re.sub(r'<[^>]+>', '', ·)`: like `stripDelimAux` but a
candidate `<>` with empty body is not a match and is kept. -/
def stripTagsAux : List Char → Option (List Char) → List Char
  | [], none => []
  | [], some buf => buf.reverse
  | c :: rest, none =>
    if c = '<' then stripTagsAux rest (some ['<'])
    else c :: stripTagsAux rest none
  | c :: rest, some buf =>
    if c = '>' then
      if buf = ['<'] then '<' :: '>' :: stripTagsAux rest none
      else stripTagsAux rest none
    else stripTagsAux rest (some (c :: buf))

/-- Delete HTML-tag-shaped segments (`re.sub(r'<[^>]+>', '', s)`). -/
def stripTags (cs : List Char) : List Char := stripTagsAux cs none

/-- Does `cs` start with `pat`? -/
def startsWithL : List Char → List Char → Bool
  | [], _ => true
  | _ :: _, [] => false
  | p :: ps, c :: cs => p = c && startsWithL ps cs

/-- Does `cs` contain `pat` as a contiguous segment (Python
`pat in s`)? -/
def containsSub (pat : List Char) : List Char → Bool
  | [] => startsWithL pat []
  | c :: cs => startsWithL pat (c :: cs) || containsSub pat cs

/-- Python `pat in s` on strings. -/
def strContainsSub (s pat : String) : Bool := containsSub pat.data s.data

/-- Parse an unsigned digit run (helper for Python `int(str)`). -/
def digitsToNatAux : List Char → Nat → Option Nat
  | [], acc => some acc
  | c :: cs, acc =>
    if c.isDigit then digitsToNatAux cs (acc * 10 + (c.toNat - '0'.toNat))
    else none

/-- Python `int(s)` for a plain decimal string: surrounding whitespace
stripped, optional sign, at least one digit. -/
def pyIntOfString (s : String) : Option Int :=
  match pyStripList s.data with
  | [] => none
  | '-' :: ds =>
    if ds = [] then none
    else (digitsToNatAux ds 0).map (fun n => -(n : Int))
  | '+' :: ds =>
    if ds = [] then none
    else (digitsToNatAux ds 0).map (fun n => (n : Int))
  | ds => (digitsToNatAux ds 0).map (fun n => (n : Int))

/-- Python `int(v)`: identity on ints, truncation toward zero on floats,
decimal parse on strings; `None` and lists raise (`none`). -/
def pyInt : Value → Option Int
  | .vInt n => some n
  | .vFloat q => some (if 0 ≤ q then ⌊q⌋ else ⌈q⌉)
  | .vStr s => pyIntOfString s
  | _ => none

/-- Unsigned part of Python `float(s)`: digits with an optional decimal
point (helper for `pyFloatOfString`). -/
def pyFloatDigits (ds : List Char) : Option ℚ :=
  let intPart := ds.takeWhile (· ≠ '.')
  let rest := ds.dropWhile (· ≠ '.')
  match rest with
  | [] =>
    (digitsToNatAux intPart 0).bind
      (fun n => if intPart = [] then none else some ((n : ℚ)))
  | _ :: frac =>
    if intPart = [] ∧ frac = [] then none
    else if frac.any (fun c => c = '.') then none
    else
      (digitsToNatAux intPart 0).bind (fun n =>
        (digitsToNatAux frac 0).map (fun m =>
          (n : ℚ) + (m : ℚ) / ((10 : ℚ) ^ frac.length)))

/-- Python `float(s)` for a plain decimal string (sign, digits, optional
point); scientific notation is not needed by any input in this
development. -/
def pyFloatOfString (s : String) : Option ℚ :=
  match pyStripList s.data with
  | [] => none
  | '-' :: ds => (pyFloatDigits ds).map (fun q => -q)
  | '+' :: ds => pyFloatDigits ds
  | ds => pyFloatDigits ds

/-- Python `float(v)`: identity on floats, cast on ints, decimal parse
on strings; `None` and lists raise (`none`). -/
def pyFloat : Value → Option ℚ
  | .vFloat q => some q
  | .vInt n => some ((n : ℤ) : ℚ)
  | .vStr s => pyFloatOfString s
  | _ => none

/-- A fully-populated record (completeness 1) used as the worked example
of claim C2. -/
def fullRecord : DramaRecord :=
  ⟨some (.vStr "d1"), some (.vStr "霸道总裁爱上我"), some (.vInt 2024),
   some (.vFloat 8), some (.vStr "详细描述"), some (.vList ["爱情"]),
   some (.vList ["甲"]), some (.vList ["乙"]), some (.vInt 24), none⟩

/-- C2: the validator's quality score equals
`clip((10 − 2·errors − 0.5·warnings) · (0.5 + 0.5·completeness), 0, 10)`,
where completeness is the fraction of the eight important fields that
are present and non-empty; a record with 0 errors, 0 warnings and
completeness 1 scores exactly 10, and one with 2 errors, 0 warnings and
completeness 0 scores exactly 3. -/
theorem quality_score_formula :
    (∀ (data : DramaRecord) (errors warnings : List String),
      DataValidator.calculateQualityScore data errors warnings =
        clip ((10 - 2 * (errors.length : ℚ) - (1/2) * (warnings.length : ℚ)) *
          (1/2 + (1/2) * DataValidator.calculateCompleteness data)) 0 10) ∧
    DataValidator.calculateCompleteness fullRecord = 1 ∧
    DataValidator.calculateQualityScore fullRecord [] [] = 10 ∧
    DataValidator.calculateCompleteness DramaRecord.empty = 0 ∧
    DataValidator.calculateQualityScore DramaRecord.empty ["e1", "e2"] [] = 3 := by
  have hfull : DataValidator.importantFields.countP
      (fun f => filledField (fullRecord.get f)) = 8 := by decide
  have hempty : DataValidator.importantFields.countP
      (fun f => filledField (DramaRecord.empty.get f)) = 0 := by decide
  have hcfull : DataValidator.calculateCompleteness fullRecord = 1 := by
    unfold DataValidator.calculateCompleteness
    rw [hfull]
    norm_num [DataValidator.importantFields]
  have hcempty : DataValidator.calculateCompleteness DramaRecord.empty = 0 := by
    unfold DataValidator.calculateCompleteness
    rw [hempty]
    norm_num [DataValidator.importantFields]
  refine ⟨fun data errors warnings => ?_, hcfull, ?_, hcempty, ?_⟩
  · unfold DataValidator.calculateQualityScore clip
    ring_nf
  · unfold DataValidator.calculateQualityScore
    rw [hcfull]
    norm_num
  · unfold DataValidator.calculateQualityScore
    rw [hcempty]
    norm_num

/-- The validator's configured level (src/utils/data_validator.py
lines 12-16). -/
inductive ValidationLevel where
  | strict | moderate | lenient
  deriving Repr, DecidableEq

/-- Return shape of every `DataValidator._validate_*` field validator:
`(is_valid, cleaned_value, errors, warnings)`. -/
structure VOut where
  ok : Bool
  cleaned : Option Value
  errs : List String
  warns : List String
  deriving Repr

/-- `DataValidator._clean_title` (lines 411-426): strip, collapse
whitespace, drop `【...】` and `[...]` segments, strip again. -/
def cleanTitle (title : String) : String :=
  if title = "" then ""
  else
    let t := pyStripList title.data
    let t := collapseWS t
    let t := stripDelim '【' '】' t
    let t := stripDelim '[' ']' t
    String.mk (pyStripList t)

/-- The special characters `[<>\"\'&]` checked by `_validate_title`. -/
def hasSpecialChar (s : String) : Bool :=
  s.data.any (fun c => c = '<' || c = '>' || c = '"' || c = '\'' || c = '&')

/-- `DataValidator._validate_title` (lines 197-220). -/
def validateTitle (v : Value) : VOut :=
  match v with
  | .vStr title =>
    let cleaned := cleanTitle title
    if cleaned = "" then ⟨false, none, ["标题不能为空"], []⟩
    else
      let errors : List String := if cleaned.length < 2 then ["标题过短"] else []
      let warnings : List String :=
        if cleaned.length < 2 then []
        else if cleaned.length > 100 then ["标题过长"] else []
      let warnings := warnings ++
        (if hasSpecialChar cleaned then ["标题包含特殊字符"] else [])
      ⟨errors.isEmpty, some (.vStr cleaned), errors, warnings⟩
  | _ => ⟨false, none, ["标题必须是字符串"], []⟩

/-- `DataValidator._validate_year` (lines 222-244); `currentYear` is
`datetime.now().year`, passed as a parameter. -/
def validateYear (currentYear : Int) (v : Value) : VOut :=
  if v = .vNone then ⟨true, none, [], ["年份为空"]⟩
  else
    match pyInt v with
    | none => ⟨false, none, ["年份格式无效"], []⟩
    | some y =>
      let errors : List String :=
        if y < 1900 then ["年份过早"]
        else if y > currentYear + 2 then ["年份无效（未来年份）"] else []
      let warnings : List String :=
        if y < 1900 then []
        else if y > currentYear + 2 then []
        else if y > currentYear then ["年份为未来年份"] else []
      ⟨errors.isEmpty, some (.vInt y), errors, warnings⟩

/-- `DataValidator._validate_rating` (lines 246-266). -/
def validateRating (v : Value) : VOut :=
  if v = .vNone then ⟨true, none, [], ["评分为空"]⟩
  else
    match pyFloat v with
    | none => ⟨false, none, ["评分格式无效"], []⟩
    | some r =>
      let errors : List String :=
        if r < 0 then ["评分不能为负数"]
        else if r > 10 then ["评分不能超过10"] else []
      let warnings : List String :=
        if r < 0 then []
        else if r > 10 then []
        else if r = 0 then ["评分为0，可能是默认值"] else []
      ⟨errors.isEmpty, some (.vFloat r), errors, warnings⟩

/-- `DataValidator._clean_text` (lines 428-442): collapse whitespace,
drop HTML-tag segments, drop characters outside the CJK / word /
whitespace / listed-punctuation classes, strip. -/
def allowedTextChar (c : Char) : Bool :=
  (0x4e00 ≤ c.toNat && c.toNat ≤ 0x9fff) ||
  (c.isAlphanum || c = '_') ||
  isPySpace c ||
  ['，', '。', '！', '？', '；', '：', '“', '”', '‘', '’', '（', '）',
    '【', '】'].contains c

/-- `DataValidator._clean_text`. -/
def cleanText (text : String) : String :=
  if text = "" then ""
  else
    let t := collapseWS text.data
    let t := stripTags t
    let t := t.filter allowedTextChar
    String.mk (pyStripList t)

/-- `DataValidator._validate_summary` (lines 268-286). -/
def validateSummary (v : Value) : VOut :=
  match v with
  | .vStr summary =>
    let cleaned := cleanText summary
    if cleaned = "" then ⟨true, some (.vStr ""), [], ["剧情简介为空"]⟩
    else
      let warnings : List String :=
        if cleaned.length < 10 then ["剧情简介过短"]
        else if cleaned.length > 2000 then ["剧情简介过长"] else []
      ⟨true, some (.vStr cleaned), [], warnings⟩
  | _ => ⟨false, none, ["剧情简介必须是字符串"], []⟩

/-- `DataValidator._validate_genres` (lines 288-306).  The embedded
list type is `List String`, so the source's `isinstance(genre, str)`
guard is always satisfied. -/
def validateGenres (v : Value) : VOut :=
  match v with
  | .vList gs =>
    let cleaned := gs.filterMap (fun g =>
      let t := pyStrip g
      if t = "" then none else some t)
    let warnings : List String :=
      if cleaned = [] then ["类型列表为空"]
      else if cleaned.length > 10 then ["类型过多"] else []
    ⟨true, some (.vList cleaned), [], warnings⟩
  | _ => ⟨false, none, ["类型必须是列表"], []⟩

/-- Item pass of `DataValidator._validate_string_list` (lines 345-352):
returns the kept (cleaned) items and the per-item length warnings, in
source order. -/
def stringListItems (fieldName : String) : List String → List String × List String
  | [] => ([], [])
  | item :: rest =>
    let out := stringListItems fieldName rest
    let t := pyStrip item
    if t = "" then out
    else if t.length ≤ 50 then (t :: out.1, out.2)
    else (out.1,
      (fieldName ++ "项目过长: " ++ String.mk (t.data.take 20) ++ "...") :: out.2)

/-- `DataValidator._validate_string_list` (lines 336-357). -/
def validateStringList (fieldName : String) (maxCount : Nat) (v : Value) : VOut :=
  match v with
  | .vList items =>
    let out := stringListItems fieldName items
    let warnings := out.2 ++
      (if out.1.length > maxCount then [fieldName ++ "数量过多"] else [])
    ⟨true, some (.vList out.1), [], warnings⟩
  | _ => ⟨false, none, [fieldName ++ "必须是列表"], []⟩

/-- `DataValidator._validate_episodes_count` (lines 316-334). -/
def validateEpisodesCount (v : Value) : VOut :=
  if v = .vNone then ⟨true, none, [], ["集数为空"]⟩
  else
    match pyInt v with
    | none => ⟨false, none, ["集数格式无效"], []⟩
    | some e =>
      let errors : List String := if e < 1 then ["集数必须大于0"] else []
      let warnings : List String :=
        if e < 1 then []
        else if e > 200 then ["集数过多"] else []
      ⟨errors.isEmpty, some (.vInt e), errors, warnings⟩

/-- The `field_validators` dispatch table of `validate_drama_data`
(lines 60-69); `id` and `tags` are not in the table and their arms are
never reached by the field loop. -/
def fieldValidator (currentYear : Int) : DKey → Value → VOut
  | .title => validateTitle
  | .year => validateYear currentYear
  | .rating => validateRating
  | .summary => validateSummary
  | .genres => validateGenres
  | .casts => validateStringList "演员" 20
  | .directors => validateStringList "导演" 5
  | .episodes_count => validateEpisodesCount
  | .id => fun _ => ⟨true, none, [], []⟩
  | .tags => fun _ => ⟨true, none, [], []⟩

/-- Iteration order of the `field_validators` dict (insertion order,
lines 60-69). -/
def fieldValidatorKeys : List DKey :=
  [.title, .year, .rating, .summary, .genres, .casts, .directors,
   .episodes_count]

/-- The local state of `validate_drama_data`: the input dict `data`,
the working copy `cleaned_data`, and the `errors` / `warnings`
accumulators.  `data` is threaded explicitly so that the absence of
writes to it is a statement about the embedded program. -/
structure VState where
  data : DramaRecord
  cleaned : DramaRecord
  errors : List String
  warnings : List String

/-- One iteration of the field loop (lines 71-89): run the field's
validator on `data[field]`, escalate its errors only at strict level
(else demote them to warnings), keep its warnings, and write the
cleaned value (when not `None`) into `cleaned_data`. -/
def fieldLoopStep (level : ValidationLevel) (currentYear : Int)
    (st : VState) (f : DKey) : VState :=
  match st.data.get f with
  | none => st
  | some v =>
    let out := fieldValidator currentYear f v
    let errors :=
      if out.ok = false ∧ level = ValidationLevel.strict
      then st.errors ++ out.errs else st.errors
    let warnings :=
      if out.ok = false ∧ level = ValidationLevel.strict then st.warnings
      else if out.errs = [] then st.warnings
      else st.warnings ++ out.errs
    let warnings := warnings ++ out.warns
    let cleaned :=
      match out.cleaned with
      | some cv => st.cleaned.set f cv
      | none => st.cleaned
    ⟨st.data, cleaned, errors, warnings⟩

/-- The field loop of `validate_drama_data` over the dispatch table. -/
def fieldLoop (level : ValidationLevel) (currentYear : Int)
    (st : VState) (ks : List DKey) : VState :=
  ks.foldl (fieldLoopStep level currentYear) st

/-- The required-field check (lines 53-57): `id` and `title` must be
present and truthy, at every validation level. -/
def requiredErrors (data : DramaRecord) : List String :=
  (if optTruthy data.id then [] else ["缺少必需字段: id"]) ++
  (if optTruthy data.title then [] else ["缺少必需字段: title"])

/-- `DataValidator._validate_data_consistency` (lines 359-380) on the
cleaned record.  The `.error` results model the `AttributeError` /
`TypeError` a non-string title or non-iterable genre value would raise
there (outside any `try` in the source). -/
def validateDataConsistency (data : DramaRecord) :
    Except String (List String × List String) :=
  let w1 : List String :=
    match data.year, data.rating with
    | some (.vInt y), some (.vInt n) =>
      if ¬(y = 0) ∧ ¬(n = 0) ∧ y < 2000 ∧ n > 9 then ["早期作品评分异常高"] else []
    | some (.vInt y), some (.vFloat q) =>
      if ¬(y = 0) ∧ ¬(q = 0) ∧ y < 2000 ∧ q > 9 then ["早期作品评分异常高"] else []
    | _, _ => []
  match data.title.getD (.vStr "") with
  | .vStr t =>
    let tl := pyLower t
    if strContainsSub tl "爱情" || strContainsSub tl "恋爱" then
      match data.genres.getD (.vList []) with
      | .vList gs =>
        if gs.any (fun g =>
            strContainsSub g "爱情" || strContainsSub (pyLower g) "romance")
        then .ok ([], w1)
        else .ok ([], w1 ++ ["标题暗示爱情主题但类型中未体现"])
      | .vStr _ => .ok ([], w1 ++ ["标题暗示爱情主题但类型中未体现"])
      | _ => .error "TypeError: genres value is not iterable"
    else .ok ([], w1)
  | _ => .error "AttributeError: title value has no lower()"

/-- The result record of `validate_drama_data` (lines 26-34); the
`validation_metadata` dict is omitted (its only non-timestamp content
restates the level and the completeness, which are explicit here). -/
structure ValidationResult where
  is_valid : Bool
  errors : List String
  warnings : List String
  cleaned_data : DramaRecord
  quality_score : ℚ

/-- The state after the required-field check and the field loop of
`validate_drama_data`, starting from `cleaned_data = data.copy()`. -/
def loopState (level : ValidationLevel) (currentYear : Int)
    (data : DramaRecord) : VState :=
  fieldLoop level currentYear ⟨data, data, requiredErrors data, []⟩
    fieldValidatorKeys

/-- `DataValidator.validate_drama_data` (lines 47-117): required-field
check, field loop over the working copy, consistency check on the
cleaned record (whose exceptions escape), quality score, and
`is_valid = (len(errors) == 0)`. -/
def validateDramaData (level : ValidationLevel) (currentYear : Int)
    (data : DramaRecord) : Except String ValidationResult :=
  match validateDataConsistency (loopState level currentYear data).cleaned with
  | .error e => .error e
  | .ok cw =>
    let errors := (loopState level currentYear data).errors ++ cw.1
    let warnings := (loopState level currentYear data).warnings ++ cw.2
    .ok ⟨errors.isEmpty, errors, warnings,
         (loopState level currentYear data).cleaned,
         DataValidator.calculateQualityScore
           (loopState level currentYear data).cleaned errors warnings⟩

/-- `validate_drama_data` together with the final state of the input
dict `data` (threaded through the field loop by `VState`): the pair of
the returned result and what the caller's dictionary holds after the
call. -/
def validateDramaDataRun (level : ValidationLevel) (currentYear : Int)
    (data : DramaRecord) : Except String ValidationResult × DramaRecord :=
  (validateDramaData level currentYear data,
   (loopState level currentYear data).data)

/-- `is_valid` of a validation outcome (an uncaught exception yields no
result; mapped to `false` here only for concrete evaluation). -/
def exceptIsValid : Except String ValidationResult → Bool
  | .ok r => r.is_valid
  | .error _ => false

/-- `errors` of a validation outcome (`[]` when an exception escaped). -/
def exceptErrors : Except String ValidationResult → List String
  | .ok r => r.errors
  | .error _ => []

/-- `warnings` of a validation outcome (`[]` when an exception
escaped). -/
def exceptWarnings : Except String ValidationResult → List String
  | .ok r => r.warnings
  | .error _ => []

/-- Did the validation call return (rather than raise)? -/
def isOkB : Except String ValidationResult → Bool
  | .ok _ => true
  | .error _ => false

theorem fieldLoopStep_data (level : ValidationLevel) (cy : Int)
    (st : VState) (f : DKey) : (fieldLoopStep level cy st f).data = st.data := by
  unfold fieldLoopStep
  cases st.data.get f <;> rfl

theorem fieldLoop_data (level : ValidationLevel) (cy : Int) (ks : List DKey) :
    ∀ st : VState, (fieldLoop level cy st ks).data = st.data := by
  induction ks with
  | nil => intro st; rfl
  | cons k ks ih =>
    intro st
    show (fieldLoop level cy (fieldLoopStep level cy st k) ks).data = st.data
    rw [ih, fieldLoopStep_data]

theorem fieldLoopStep_errors_mono (level : ValidationLevel) (cy : Int)
    (st : VState) (f : DKey) :
    ∃ t, (fieldLoopStep level cy st f).errors = st.errors ++ t := by
  unfold fieldLoopStep
  cases st.data.get f with
  | none => exact ⟨[], by simp⟩
  | some v =>
    by_cases h : ((fieldValidator cy f v).ok = false ∧
        level = ValidationLevel.strict)
    · exact ⟨(fieldValidator cy f v).errs, by simp [h]⟩
    · exact ⟨[], by simp [h]⟩

theorem fieldLoop_errors_mono (level : ValidationLevel) (cy : Int)
    (ks : List DKey) :
    ∀ st : VState, ∃ t, (fieldLoop level cy st ks).errors = st.errors ++ t := by
  induction ks with
  | nil => intro st; exact ⟨[], by simp [fieldLoop]⟩
  | cons k ks ih =>
    intro st
    obtain ⟨t1, h1⟩ := fieldLoopStep_errors_mono level cy st k
    obtain ⟨t2, h2⟩ := ih (fieldLoopStep level cy st k)
    refine ⟨t1 ++ t2, ?_⟩
    show (fieldLoop level cy (fieldLoopStep level cy st k) ks).errors = _
    rw [h2, h1, List.append_assoc]

theorem fieldLoop_strict_mem (cy : Int) (ks : List DKey) :
    ∀ (st : VState) (f : DKey) (v : Value), f ∈ ks →
      st.data.get f = some v → (fieldValidator cy f v).ok = false →
      ∀ e ∈ (fieldValidator cy f v).errs,
        e ∈ (fieldLoop ValidationLevel.strict cy st ks).errors := by
  induction ks with
  | nil => intro st f v hf; exact absurd hf (List.not_mem_nil f)
  | cons k ks ih =>
    intro st f v hf hget hok e he
    rcases List.mem_cons.mp hf with heq | htail
    · subst heq
      have hstep : (fieldLoopStep ValidationLevel.strict cy st f).errors =
          st.errors ++ (fieldValidator cy f v).errs := by
        unfold fieldLoopStep
        rw [hget]
        simp [hok]
      obtain ⟨t, ht⟩ := fieldLoop_errors_mono ValidationLevel.strict cy ks
        (fieldLoopStep ValidationLevel.strict cy st f)
      show e ∈ (fieldLoop ValidationLevel.strict cy
        (fieldLoopStep ValidationLevel.strict cy st f) ks).errors
      rw [ht, hstep]
      simp [he]
    · have hdata := fieldLoopStep_data ValidationLevel.strict cy st k
      refine ih (fieldLoopStep ValidationLevel.strict cy st k) f v htail ?_ hok e he
      rw [hdata]
      exact hget

theorem loopState_keeps_required (level : ValidationLevel) (cy : Int)
    (data : DramaRecord) :
    ∀ e ∈ requiredErrors data, e ∈ (loopState level cy data).errors := by
  obtain ⟨t, ht⟩ := fieldLoop_errors_mono level cy fieldValidatorKeys
    ⟨data, data, requiredErrors data, []⟩
  intro e he
  unfold loopState
  rw [ht]
  exact List.mem_append_left _ he

theorem validate_ok_spec (level : ValidationLevel) (cy : Int)
    (data : DramaRecord) (res : ValidationResult)
    (hE : validateDramaData level cy data = .ok res) :
    ∃ cw, validateDataConsistency (loopState level cy data).cleaned =
        .ok cw ∧
      res.errors = (loopState level cy data).errors ++ cw.1 ∧
      res.is_valid = res.errors.isEmpty := by
  unfold validateDramaData at hE
  cases hc : validateDataConsistency (loopState level cy data).cleaned with
  | error e => rw [hc] at hE; cases hE
  | ok cw =>
    rw [hc] at hE
    dsimp only at hE
    injection hE with hres
    refine ⟨cw, rfl, ?_, ?_⟩
    · rw [← hres]
    · rw [← hres]

theorem isEmpty_false_of_mem {α : Type} {a : α} {l : List α} (h : a ∈ l) :
    l.isEmpty = false := by
  cases l with
  | nil => cases h
  | cons x xs => rfl

/-- A record with a valid `id` and `title` and `rating = 15.0`, the
concrete input refuting claim C1 at the default moderate level. -/
def ratingRecord15 : DramaRecord :=
  ⟨some (.vStr "d1"), some (.vStr "有效标题"), none, some (.vFloat 15),
   none, none, none, none, none, none⟩

/-- A record with a valid `id` and `title` and `year = 2030`
(`currentYear + 5` for `currentYear = 2025`). -/
def futureYearRecord : DramaRecord :=
  ⟨some (.vStr "d1"), some (.vStr "有效标题"), some (.vInt 2030), none,
   none, none, none, none, none, none⟩

/-- A record with a valid `id` and an empty `title`. -/
def emptyTitleRecord : DramaRecord :=
  ⟨some (.vStr "d1"), some (.vStr ""), none, none,
   none, none, none, none, none, none⟩

/-- C1 counterexample: at the default moderate level the record
`{id:"d1", title:"有效标题", rating:15.0}` is reported **valid** — the
out-of-range rating produces no error, only the warning `评分不能超过10`
(field errors are demoted to warnings below strict level,
src/utils/data_validator.py lines 76-79), refuting the claim that a
`rating=15.0` record is invalid at any configured level. -/
theorem validator_range_counterexample :
    exceptIsValid (validateDramaData ValidationLevel.moderate 2025
      ratingRecord15) = true ∧
    exceptErrors (validateDramaData ValidationLevel.moderate 2025
      ratingRecord15) = [] ∧
    "评分不能超过10" ∈ exceptWarnings (validateDramaData
      ValidationLevel.moderate 2025 ratingRecord15) := by
  refine ⟨by decide, by decide, by decide⟩

/-- C1 (amended): at **strict** level a record with `rating = 15.0` is
invalid with the error `评分不能超过10` (the rating bound), and a record
with `year = currentYear + 5` is invalid; a record with an empty
`title` is invalid at every level (required-field check).  At moderate
and lenient levels the rating/year violations only produce warnings
(see the counterexample). -/
theorem validator_range_checks_amended :
    (∀ (cy : Int) (r : DramaRecord) (res : ValidationResult),
        r.rating = some (.vFloat 15) →
        validateDramaData ValidationLevel.strict cy r = .ok res →
        res.is_valid = false ∧ "评分不能超过10" ∈ res.errors) ∧
    (∀ (cy : Int) (r : DramaRecord) (res : ValidationResult),
        r.year = some (.vInt (cy + 5)) →
        validateDramaData ValidationLevel.strict cy r = .ok res →
        res.is_valid = false) ∧
    (∀ (level : ValidationLevel) (cy : Int) (r : DramaRecord)
        (res : ValidationResult),
        r.title = some (.vStr "") →
        validateDramaData level cy r = .ok res →
        res.is_valid = false ∧ "缺少必需字段: title" ∈ res.errors) := by
  refine ⟨?_, ?_, ?_⟩
  · intro cy r res hr hE
    obtain ⟨cw, hc, herr, hval⟩ := validate_ok_spec _ _ _ _ hE
    have hok : (fieldValidator cy DKey.rating (.vFloat 15)).ok = false := by
      show (validateRating (.vFloat 15)).ok = false
      decide
    have hem : "评分不能超过10" ∈
        (fieldValidator cy DKey.rating (.vFloat 15)).errs := by
      show "评分不能超过10" ∈ (validateRating (.vFloat 15)).errs
      decide
    have hloop : "评分不能超过10" ∈
        (loopState ValidationLevel.strict cy r).errors :=
      fieldLoop_strict_mem cy fieldValidatorKeys
        ⟨r, r, requiredErrors r, []⟩ DKey.rating (.vFloat 15)
        (by decide) hr hok _ hem
    have hmem : "评分不能超过10" ∈ res.errors := by
      rw [herr]
      exact List.mem_append_left _ hloop
    exact ⟨hval.trans (isEmpty_false_of_mem hmem), hmem⟩
  · intro cy r res hr hE
    obtain ⟨cw, hc, herr, hval⟩ := validate_ok_spec _ _ _ _ hE
    have hy : validateYear cy (.vInt (cy + 5)) =
        if cy + 5 < 1900
        then ⟨false, some (.vInt (cy + 5)), ["年份过早"], []⟩
        else ⟨false, some (.vInt (cy + 5)), ["年份无效（未来年份）"], []⟩ := by
      unfold validateYear
      rw [if_neg (by simp)]
      simp only [pyInt]
      by_cases h1 : cy + 5 < 1900
      · simp [h1]
      · have h2 : cy + 5 > cy + 2 := by omega
        simp [h1, h2]
    obtain ⟨e, he, hok⟩ : ∃ e,
        e ∈ (validateYear cy (.vInt (cy + 5))).errs ∧
        (validateYear cy (.vInt (cy + 5))).ok = false := by
      rw [hy]
      by_cases h1 : cy + 5 < 1900
      · rw [if_pos h1]
        exact ⟨"年份过早", by simp, rfl⟩
      · rw [if_neg h1]
        exact ⟨"年份无效（未来年份）", by simp, rfl⟩
    have hloop : e ∈ (loopState ValidationLevel.strict cy r).errors :=
      fieldLoop_strict_mem cy fieldValidatorKeys
        ⟨r, r, requiredErrors r, []⟩ DKey.year (.vInt (cy + 5))
        (by decide) hr hok e he
    have hmem : e ∈ res.errors := by
      rw [herr]
      exact List.mem_append_left _ hloop
    exact hval.trans (isEmpty_false_of_mem hmem)
  · intro level cy r res hr hE
    obtain ⟨cw, hc, herr, hval⟩ := validate_ok_spec _ _ _ _ hE
    have hreq : "缺少必需字段: title" ∈ requiredErrors r := by
      have hsplit : requiredErrors r =
          (if optTruthy r.id then [] else ["缺少必需字段: id"]) ++
            ["缺少必需字段: title"] := by
        unfold requiredErrors
        rw [hr]
        rfl
      rw [hsplit]
      exact List.mem_append_right _ (by simp)
    have hmem : "缺少必需字段: title" ∈ res.errors := by
      rw [herr]
      exact List.mem_append_left _
        (loopState_keeps_required level cy r _ hreq)
    exact ⟨hval.trans (isEmpty_false_of_mem hmem), hmem⟩

/-- C1 amended-claim witness: the amended theorem applied at concrete
records (`rating=15.0` / `year=2030` at strict level with
`currentYear=2025`; empty title at lenient level). -/
theorem validator_range_checks_amended_witness :
    (exceptIsValid (validateDramaData ValidationLevel.strict 2025
      ratingRecord15) = false ∧
     "评分不能超过10" ∈ exceptErrors (validateDramaData
      ValidationLevel.strict 2025 ratingRecord15)) ∧
    exceptIsValid (validateDramaData ValidationLevel.strict 2025
      futureYearRecord) = false ∧
    (exceptIsValid (validateDramaData ValidationLevel.lenient 2025
      emptyTitleRecord) = false ∧
     "缺少必需字段: title" ∈ exceptErrors (validateDramaData
      ValidationLevel.lenient 2025 emptyTitleRecord)) := by
  refine ⟨?_, ?_, ?_⟩
  · have hOk : isOkB (validateDramaData ValidationLevel.strict 2025
        ratingRecord15) = true := by decide
    cases hE : validateDramaData ValidationLevel.strict 2025 ratingRecord15 with
    | error e => rw [hE] at hOk; exact absurd hOk (by simp [isOkB])
    | ok res =>
      obtain ⟨h1, h2⟩ := validator_range_checks_amended.1 2025
        ratingRecord15 res rfl hE
      exact ⟨h1, h2⟩
  · have hOk : isOkB (validateDramaData ValidationLevel.strict 2025
        futureYearRecord) = true := by decide
    cases hE : validateDramaData ValidationLevel.strict 2025 futureYearRecord with
    | error e => rw [hE] at hOk; exact absurd hOk (by simp [isOkB])
    | ok res =>
      exact validator_range_checks_amended.2.1 2025
        futureYearRecord res (by decide) hE
  · have hOk : isOkB (validateDramaData ValidationLevel.lenient 2025
        emptyTitleRecord) = true := by decide
    cases hE : validateDramaData ValidationLevel.lenient 2025 emptyTitleRecord with
    | error e => rw [hE] at hOk; exact absurd hOk (by simp [isOkB])
    | ok res =>
      obtain ⟨h1, h2⟩ := validator_range_checks_amended.2.2
        ValidationLevel.lenient 2025 emptyTitleRecord res rfl hE
      exact ⟨h1, h2⟩

/-- C10: `validate_drama_data` never mutates the record passed in — the
input dict threaded through the required-field check, the field loop
(which writes only to the `cleaned_data` copy) and the consistency
check is returned unchanged, at every level and whether or not
validation succeeds. -/
theorem validator_does_not_mutate_input :
    ∀ (level : ValidationLevel) (cy : Int) (data : DramaRecord),
      (validateDramaDataRun level cy data).2 = data := by
  intro level cy data
  show (loopState level cy data).data = data
  unfold loopState
  rw [fieldLoop_data]

/-- Python `str(v)` as used in the dedup key f-string
(`f"{title}_{year}"`, multi_source_collector.py line 138).  Only the
`vInt` / `vStr` arms are exercised by well-formed records. -/
def pyStrValue : Value → String
  | .vInt n => toString n
  | .vStr s => s
  | .vNone => "None"
  | .vFloat q => toString q
  | .vList xs => toString xs

/-- The composite dedup key (lines 136-138):
`drama.get('title', '').strip().lower() + "_" + str(drama.get('year', 0))`.
A non-string title would raise in Python; its arm here yields `""` and
is excluded by the well-formedness hypotheses of the theorems. -/
def dedupKey (d : DramaRecord) : String :=
  let title := match d.title.getD (.vStr "") with
    | .vStr s => pyLower (pyStrip s)
    | _ => ""
  title ++ "_" ++ pyStrValue (d.year.getD (.vInt 0))

/-- Python `len(v)` (lists and strings; other arms raise in Python and
are excluded by well-formedness). -/
def lenValue : Value → Nat
  | .vList xs => xs.length
  | .vStr s => s.length
  | _ => 0

/-- `drama.get('rating', 0) > 0` (line 171); non-numeric ratings raise
in Python and are excluded by well-formedness. -/
def ratingPositive : Option Value → Bool
  | some (.vInt n) => n > 0
  | some (.vFloat q) => q > 0
  | some _ => false
  | none => false

/-- `if drama.get(k): score += len(drama[k])` (lines 174-177). -/
def countScore : Option Value → Nat
  | some v => if v.truthy then lenValue v else 0
  | none => 0

/-- `MultiSourceCollector._calculate_completeness_score`
(lines 163-179). -/
def completenessScore (d : DramaRecord) : Nat :=
  (if optTruthy d.title then 1 else 0) +
  (if optTruthy d.summary then 2 else 0) +
  (if optTruthy d.year then 1 else 0) +
  (if ratingPositive d.rating then 1 else 0) +
  countScore d.genres +
  countScore d.casts +
  countScore d.directors +
  countScore d.tags

/-- `unique_dramas[unique_dramas.index(existing)] = drama` (lines
152-153): replace the first element equal (by value) to `existing`. -/
def pyListIndexReplace : List DramaRecord → DramaRecord → DramaRecord →
    List DramaRecord
  | [], _, _ => []
  | x :: xs, existing, d =>
    if x = existing then d :: xs
    else x :: pyListIndexReplace xs existing d

/-- The loop of `MultiSourceCollector._deduplicate_dramas`
(lines 129-155): `seen` is the set of keys already emitted, `unique`
the output list so far. -/
def dedupLoop : List DramaRecord → List String → List DramaRecord →
    List DramaRecord
  | [], _, unique => unique
  | d :: rest, seen, unique =>
    let k := dedupKey d
    if k ∈ seen then
      match unique.find? (fun u => dedupKey u = k) with
      | some existing =>
        if completenessScore d > completenessScore existing then
          dedupLoop rest seen (pyListIndexReplace unique existing d)
        else dedupLoop rest seen unique
      | none => dedupLoop rest seen unique
    else dedupLoop rest (k :: seen) (unique ++ [d])

/-- `MultiSourceCollector._deduplicate_dramas`. -/
def deduplicateDramas (dramas : List DramaRecord) : List DramaRecord :=
  dedupLoop dramas [] []

theorem pyListIndexReplace_map_key (existing d : DramaRecord)
    (hk : dedupKey d = dedupKey existing) :
    ∀ unique : List DramaRecord,
      (pyListIndexReplace unique existing d).map dedupKey =
        unique.map dedupKey := by
  intro unique
  induction unique with
  | nil => rfl
  | cons x xs ih =>
    by_cases hx : x = existing
    · simp [pyListIndexReplace, hx, hk]
    · simp [pyListIndexReplace, hx, ih]

theorem dedupLoop_spec :
    ∀ (l : List DramaRecord) (seen : List String)
      (unique : List DramaRecord),
      (unique.map dedupKey).Nodup →
      (∀ k, k ∈ seen ↔ k ∈ unique.map dedupKey) →
      ((dedupLoop l seen unique).map dedupKey).Nodup ∧
      (∀ d ∈ l, dedupKey d ∈ (dedupLoop l seen unique).map dedupKey) ∧
      (∀ k ∈ unique.map dedupKey,
        k ∈ (dedupLoop l seen unique).map dedupKey) := by
  intro l
  induction l with
  | nil =>
    intro seen unique hnd hiff
    exact ⟨hnd, by simp, fun k hk => hk⟩
  | cons d rest ih =>
    intro seen unique hnd hiff
    by_cases hseen : dedupKey d ∈ seen
    · have hkeymem : dedupKey d ∈ unique.map dedupKey :=
        (hiff (dedupKey d)).mp hseen
      have hfind : ∃ existing,
          unique.find? (fun u => dedupKey u = dedupKey d) = some existing := by
        obtain ⟨u, hu, hku⟩ := List.exists_of_mem_map hkeymem
        rcases hf : unique.find? (fun u => dedupKey u = dedupKey d) with _ | e
        · exfalso
          have := List.find?_eq_none.mp hf u hu
          simp [hku] at this
        · exact ⟨e, rfl⟩
      obtain ⟨existing, hex⟩ := hfind
      have hkex : dedupKey existing = dedupKey d := by
        have := List.find?_some hex
        simpa using this
      have hexmem : existing ∈ unique := List.mem_of_find?_eq_some hex
      by_cases hscore : completenessScore d > completenessScore existing
      · have hstep : dedupLoop (d :: rest) seen unique =
            dedupLoop rest seen (pyListIndexReplace unique existing d) := by
          simp only [dedupLoop]
          simp [hseen, hex, hscore]
        have hkeys : (pyListIndexReplace unique existing d).map dedupKey =
            unique.map dedupKey :=
          pyListIndexReplace_map_key existing d hkex.symm unique
        have hiff2 : ∀ k, k ∈ seen ↔
            k ∈ (pyListIndexReplace unique existing d).map dedupKey := by
          intro k
          rw [hkeys]
          exact hiff k
        obtain ⟨h1, h2, h3⟩ := ih seen (pyListIndexReplace unique existing d)
          (hkeys ▸ hnd) hiff2
        rw [hstep]
        refine ⟨h1, ?_, ?_⟩
        · intro e he
          rcases List.mem_cons.mp he with heq | htail
          · subst heq
            exact h3 _ (by rw [hkeys]; exact hkeymem)
          · exact h2 e htail
        · intro k hk
          exact h3 k (by rw [hkeys]; exact hk)
      · have hstep : dedupLoop (d :: rest) seen unique =
            dedupLoop rest seen unique := by
          simp only [dedupLoop]
          simp [hseen, hex, hscore]
        obtain ⟨h1, h2, h3⟩ := ih seen unique hnd hiff
        rw [hstep]
        refine ⟨h1, ?_, h3⟩
        intro e he
        rcases List.mem_cons.mp he with heq | htail
        · subst heq
          exact h3 _ hkeymem
        · exact h2 e htail
    · have hstep : dedupLoop (d :: rest) seen unique =
          dedupLoop rest (dedupKey d :: seen) (unique ++ [d]) := by
        simp only [dedupLoop]
        simp [hseen]
      have hknot : dedupKey d ∉ unique.map dedupKey := by
        intro hk
        exact hseen ((hiff (dedupKey d)).mpr hk)
      have hnd2 : ((unique ++ [d]).map dedupKey).Nodup := by
        rw [List.map_append]
        simp [List.nodup_append, hnd, hknot]
      have hiff2 : ∀ k, k ∈ dedupKey d :: seen ↔
          k ∈ (unique ++ [d]).map dedupKey := by
        intro k
        constructor
        · intro hk
          rcases List.mem_cons.mp hk with heq | hks
          · subst heq
            rw [List.map_append]
            simp
          · rw [List.map_append]
            exact List.mem_append_left _ ((hiff k).mp hks)
        · intro hk
          rw [List.map_append] at hk
          rcases List.mem_append.mp hk with h | h
          · exact List.mem_cons_of_mem _ ((hiff k).mpr h)
          · simp at h
            subst h
            exact List.mem_cons_self _ _
      obtain ⟨h1, h2, h3⟩ := ih (dedupKey d :: seen) (unique ++ [d]) hnd2 hiff2
      rw [hstep]
      refine ⟨h1, ?_, ?_⟩
      · intro e he
        rcases List.mem_cons.mp he with heq | htail
        · subst heq
          exact h3 _ (by rw [List.map_append]; simp)
        · exact h2 e htail
      · intro k hk
        exact h3 k (by rw [List.map_append]; exact List.mem_append_left _ hk)

/-- Candidate A of the spec's dedup example:
`{title:"霸道总裁爱上我", year:2024, summary:"详细描述"}`. -/
def candidateA : DramaRecord :=
  ⟨none, some (.vStr "霸道总裁爱上我"), some (.vInt 2024), none,
   some (.vStr "详细描述"), none, none, none, none, none⟩

/-- Candidate B of the spec's dedup example: same title/year, empty
summary, `genres:["爱情","都市"]`, `casts:["甲","乙"]`. -/
def candidateB : DramaRecord :=
  ⟨none, some (.vStr "霸道总裁爱上我"), some (.vInt 2024), none,
   some (.vStr ""), some (.vList ["爱情", "都市"]),
   some (.vList ["甲", "乙"]), none, none, none⟩

/-- C3: deduplication collapses records sharing the composite
`lowercase(title).strip()+"_"+year` key (the output's keys are
pairwise distinct and every input key is represented), a two-record
collision keeps the record with the strictly higher completeness
score, and on the spec's worked example candidate A (score 4) loses to
candidate B (score 6). -/
theorem multi_source_dedup_spec :
    (∀ l : List DramaRecord,
        ((deduplicateDramas l).map dedupKey).Nodup ∧
        ∀ d ∈ l, ∃ u ∈ deduplicateDramas l, dedupKey u = dedupKey d) ∧
    (∀ a b : DramaRecord, dedupKey a = dedupKey b →
        deduplicateDramas [a, b] =
          [if completenessScore b > completenessScore a then b else a]) ∧
    (completenessScore candidateA = 4 ∧ completenessScore candidateB = 6 ∧
      deduplicateDramas [candidateA, candidateB] = [candidateB]) := by
  have hpair : ∀ a b : DramaRecord, dedupKey a = dedupKey b →
      deduplicateDramas [a, b] =
        [if completenessScore b > completenessScore a then b else a] := by
    intro a b hk
    by_cases hs : completenessScore b > completenessScore a
    · simp [deduplicateDramas, dedupLoop, hk, hs, pyListIndexReplace]
    · simp [deduplicateDramas, dedupLoop, hk, hs]
  refine ⟨?_, hpair, by decide, by decide, ?_⟩
  · intro l
    obtain ⟨h1, h2, _⟩ := dedupLoop_spec l [] [] (by simp) (by simp)
    refine ⟨h1, ?_⟩
    intro d hd
    obtain ⟨u, hu, hku⟩ := List.exists_of_mem_map (h2 d hd)
    exact ⟨u, hu, hku⟩
  · rw [hpair candidateA candidateB (by decide)]
    decide

/-- C3 witness: the two-record collision clause of
`multi_source_dedup_spec` applied to the spec's concrete candidates. -/
theorem multi_source_dedup_spec_witness :
    dedupKey candidateA = dedupKey candidateB ∧
    deduplicateDramas [candidateA, candidateB] = [candidateB] := by
  have hk : dedupKey candidateA = dedupKey candidateB := by decide
  have h := multi_source_dedup_spec.2.1 candidateA candidateB hk
  refine ⟨hk, ?_⟩
  rw [h]
  decide

/-- `ProcessingStatus` (src/utils/batch_processor.py lines 15-21). -/
inductive ProcessingStatus where
  | pending | processing | completed | failed | retrying
  deriving Repr, DecidableEq

/-- `BatchJob` (lines 24-47), minus the wall-clock fields:
`completed_at_set` models whether `completed_at` was assigned.  The
processor function is passed separately (it is not data). -/
structure BatchJob (α β : Type) where
  job_id : String
  data : List α
  batch_size : Nat
  max_retries : Nat
  status : ProcessingStatus
  results : List (Option β)
  errors : List String
  progress : ℚ
  completed_at_set : Bool

/-- A job as `submit_job` (lines 69-96) enqueues it: status pending,
fresh empty `results` / `errors`, progress 0. -/
def mkBatchJob {α β : Type} (jid : String) (data : List α) (bs : Nat) :
    BatchJob α β :=
  ⟨jid, data, bs, 3, .pending, [], [], 0, false⟩

/-- `BatchProcessor._create_batches` (lines 268-274): slices of
`batch_size`.  The fuel argument (initialised to the list length)
makes the recursion structural; for `batch_size ≥ 1` it never runs
out (Python raises on `batch_size = 0`). -/
def createBatchesAux {α : Type} (bs : Nat) : Nat → List α → List (List α)
  | 0, _ => []
  | _, [] => []
  | fuel + 1, l => l.take bs :: createBatchesAux bs fuel (l.drop bs)

/-- `BatchProcessor._create_batches`. -/
def createBatches {α : Type} (data : List α) (bs : Nat) : List (List α) :=
  createBatchesAux bs data.length data

/-- `BatchProcessor._process_batch` (lines 230-266): run the processor
on every item of the batch (`asyncio.gather(..., return_exceptions=True)`
keeps input order); a per-item exception becomes a `None` placeholder.
The wall-clock batch timeout is not modelled. -/
def processBatch {α β : Type} (p : α → Except String β) (batch : List α) :
    List (Option β) :=
  batch.map (fun item =>
    match p item with
    | .ok r => some r
    | .error _ => none)

/-- The batch loop of `BatchProcessor._process_job` (lines 182-208):
extend `results` with each batch's results and update `progress`.
With per-batch timeouts unmodelled, `_process_batch` never raises, so
the per-batch `except` arm (error budget) is not reachable here. -/
def processBatchesLoop {α β : Type} (p : α → Except String β) (total : Nat) :
    Nat → List (List α) → BatchJob α β → BatchJob α β
  | _, [], job => job
  | i, batch :: rest, job =>
    processBatchesLoop p total (i + 1) rest
      { job with
        results := job.results ++ processBatch p batch,
        progress := ((i + 1 : Nat) : ℚ) / ((total : Nat) : ℚ) }

/-- `BatchProcessor._process_job` (lines 170-228): mark processing,
run every batch, then mark completed with progress 1 and a set
completion time. -/
def processJob {α β : Type} (p : α → Except String β)
    (job : BatchJob α β) : BatchJob α β :=
  let job := { job with status := ProcessingStatus.processing }
  let batches := createBatches job.data job.batch_size
  let job := processBatchesLoop p batches.length 0 batches job
  { job with
    status := ProcessingStatus.completed,
    progress := 1,
    completed_at_set := true }

theorem createBatchesAux_flatten {α : Type} (bs : Nat) (hbs : 0 < bs) :
    ∀ (fuel : Nat) (l : List α), l.length ≤ fuel →
      (createBatchesAux bs fuel l).flatten = l := by
  intro fuel
  induction fuel with
  | zero =>
    intro l hl
    have : l = [] := List.eq_nil_of_length_eq_zero (Nat.le_zero.mp hl)
    subst this
    rfl
  | succ fuel ih =>
    intro l hl
    cases l with
    | nil => rfl
    | cons x xs =>
      show (List.take bs (x :: xs) :: createBatchesAux bs fuel
        (List.drop bs (x :: xs))).flatten = x :: xs
      rw [List.flatten_cons]
      rw [ih (List.drop bs (x :: xs)) ?_]
      · exact List.take_append_drop bs (x :: xs)
      · have : (List.drop bs (x :: xs)).length = (x :: xs).length - bs := by
          simp
        omega

theorem createBatches_flatten {α : Type} (bs : Nat) (hbs : 0 < bs)
    (data : List α) : (createBatches data bs).flatten = data :=
  createBatchesAux_flatten bs hbs data.length data (le_refl _)

theorem processBatchesLoop_results {α β : Type} (p : α → Except String β)
    (total : Nat) :
    ∀ (batches : List (List α)) (i : Nat) (job : BatchJob α β),
      (processBatchesLoop p total i batches job).results =
        job.results ++ (batches.map (processBatch p)).flatten := by
  intro batches
  induction batches with
  | nil => intro i job; simp [processBatchesLoop]
  | cons b bs ih =>
    intro i job
    show (processBatchesLoop p total (i + 1) bs _).results = _
    rw [ih]
    simp [List.append_assoc]

theorem processBatchesLoop_errors {α β : Type} (p : α → Except String β)
    (total : Nat) :
    ∀ (batches : List (List α)) (i : Nat) (job : BatchJob α β),
      (processBatchesLoop p total i batches job).errors = job.errors := by
  intro batches
  induction batches with
  | nil => intro i job; rfl
  | cons b bs ih => intro i job; exact ih _ _

/-- The concrete processor of the C4 scenario: raises exactly for the
item whose value is 2. -/
def exampleProcessor (n : Nat) : Except String Nat :=
  if n = 2 then .error "处理失败" else .ok n

/-- C4: a per-item exception is caught and becomes a `None` placeholder
instead of failing the batch or the job — every job ends `completed`
with one result slot per input item (`(p item).toOption`) and no
errors; in the 4-item, `batch_size=2` scenario where only item 2
raises, the job completes with result slots
`[some 1, none, some 3, some 4]`: exactly 4 slots, exactly one `None`. -/
theorem batch_per_item_error_capture :
    (∀ (α β : Type) (p : α → Except String β) (jid : String)
        (data : List α) (bs : Nat), 0 < bs →
      (processJob p (mkBatchJob jid data bs)).status =
          ProcessingStatus.completed ∧
      (processJob p (mkBatchJob jid data bs)).results =
          data.map (fun it => (p it).toOption) ∧
      (processJob p (mkBatchJob jid data bs)).errors = []) ∧
    ((processJob exampleProcessor (mkBatchJob "batch_job" [1, 2, 3, 4] 2)).status
        = ProcessingStatus.completed ∧
     (processJob exampleProcessor (mkBatchJob "batch_job" [1, 2, 3, 4] 2)).results
        = [some 1, none, some 3, some 4] ∧
     (processJob exampleProcessor (mkBatchJob "batch_job" [1, 2, 3, 4] 2)).results.length
        = 4 ∧
     ((processJob exampleProcessor
        (mkBatchJob "batch_job" [1, 2, 3, 4] 2)).results.countP
          (fun r => r.isNone)) = 1) := by
  refine ⟨?_, by decide, by decide, by decide, by decide⟩
  intro α β p jid data bs hbs
  refine ⟨rfl, ?_, ?_⟩
  · show (processBatchesLoop p _ 0 (createBatches data bs) _).results = _
    rw [processBatchesLoop_results]
    have hPB : processBatch p = List.map (fun it =>
        match p it with
        | .ok r => some r
        | .error _ => none) := rfl
    have hjoin : ((createBatches data bs).map (processBatch p)).flatten =
        (createBatches data bs).flatten.map (fun it =>
          match p it with
          | .ok r => some r
          | .error _ => none) := by
      rw [hPB, ← List.map_flatten]
    rw [hjoin, createBatches_flatten bs hbs data]
    show ([] : List (Option β)) ++ _ = _
    rw [List.nil_append]
    apply List.map_congr_left
    intro a _
    cases p a <;> rfl
  · show (processBatchesLoop p _ 0 (createBatches data bs) _).errors = []
    rw [processBatchesLoop_errors]
    rfl

/-- C4 witness: the general clause of `batch_per_item_error_capture`
applied to the concrete 4-item scenario. -/
theorem batch_per_item_error_capture_witness :
    0 < 2 ∧
    (processJob exampleProcessor
      (mkBatchJob "batch_job" [1, 2, 3, 4] 2)).errors = [] := by
  exact ⟨by decide,
    (batch_per_item_error_capture.1 Nat Nat exampleProcessor "batch_job"
      [1, 2, 3, 4] 2 (by decide)).2.2⟩

deriving instance DecidableEq for BatchJob

/-- The processor-level state `cancel_job` touches
(src/utils/batch_processor.py lines 60-62): the FIFO queue, the active
map and the completed map (the two maps are keyed by `job_id`; they are
modelled as lists with key-overwrite insertion). -/
structure BPState (α β : Type) where
  job_queue : List (BatchJob α β)
  active_jobs : List (BatchJob α β)
  completed_jobs : List (BatchJob α β)

/-- `dict[job_id] = job` on a map modelled as a list: drop any entry
with the same key, append the new one. -/
def dictInsert {α β : Type} (jobs : List (BatchJob α β))
    (j : BatchJob α β) : List (BatchJob α β) :=
  jobs.filter (fun x => x.job_id ≠ j.job_id) ++ [j]

/-- `BatchProcessor.cancel_job` (lines 130-148): always filter the job
out of the queue; if (and only if) it is active, mark it failed with
the cancellation note, move it to the completed map, and return
`True`; otherwise return `False`. -/
def cancelJob {α β : Type} (st : BPState α β) (jid : String) :
    Bool × BPState α β :=
  let queue2 := st.job_queue.filter (fun j => j.job_id ≠ jid)
  match st.active_jobs.find? (fun j => j.job_id = jid) with
  | some job =>
    let job2 := { job with
      status := ProcessingStatus.failed,
      errors := job.errors ++ ["任务被用户取消"],
      completed_at_set := true }
    (true, ⟨queue2, st.active_jobs.filter (fun j => j.job_id ≠ jid),
            dictInsert st.completed_jobs job2⟩)
  | none => (false, ⟨queue2, st.active_jobs, st.completed_jobs⟩)

/-- A queued-but-not-active job and its processor state. -/
def bpQueuedState : BPState Nat Nat :=
  ⟨[mkBatchJob "j1" [1] 2], [], []⟩

/-- An active job (status processing) and its processor state. -/
def activeJob : BatchJob Nat Nat :=
  { mkBatchJob "j1" [1] 2 with status := ProcessingStatus.processing }

/-- Processor state holding only the active job `j1`. -/
def bpActiveState : BPState Nat Nat :=
  ⟨[], [activeJob], []⟩

/-- C8 counterexample: cancelling a job that is only queued (not
active) removes it from the queue but reports failure (`False`) and
records no failed job anywhere — it is not marked `failed` and no
cancellation note is written, refuting the claim for queued jobs. -/
theorem cancel_job_counterexample :
    (cancelJob bpQueuedState "j1").1 = false ∧
    (cancelJob bpQueuedState "j1").2.job_queue = [] ∧
    (cancelJob bpQueuedState "j1").2.active_jobs = [] ∧
    (cancelJob bpQueuedState "j1").2.completed_jobs = [] := by
  refine ⟨by decide, by decide, by decide, by decide⟩

/-- C8 (amended): `cancel_job` on an **active** job marks it failed
with the cancellation note `任务被用户取消`, records a completion time,
moves it to the completed map and returns `True`; on a job that is at
most queued it merely filters the queue, leaves the active and
completed maps unchanged, and returns `False` (the queued job is
dropped without being marked). -/
theorem cancel_job_amended :
    (∀ (α β : Type) (st : BPState α β) (jid : String) (job : BatchJob α β),
        st.active_jobs.find? (fun j => j.job_id = jid) = some job →
        (cancelJob st jid).1 = true ∧
        ∃ j2 ∈ (cancelJob st jid).2.completed_jobs,
          j2.job_id = job.job_id ∧
          j2.status = ProcessingStatus.failed ∧
          "任务被用户取消" ∈ j2.errors ∧
          j2.completed_at_set = true) ∧
    (∀ (α β : Type) (st : BPState α β) (jid : String),
        st.active_jobs.find? (fun j => j.job_id = jid) = none →
        (cancelJob st jid).1 = false ∧
        (cancelJob st jid).2.job_queue =
          st.job_queue.filter (fun j => j.job_id ≠ jid) ∧
        (cancelJob st jid).2.active_jobs = st.active_jobs ∧
        (cancelJob st jid).2.completed_jobs = st.completed_jobs) := by
  constructor
  · intro α β st jid job hfind
    unfold cancelJob
    rw [hfind]
    refine ⟨rfl, ?_⟩
    refine ⟨{ job with
      status := ProcessingStatus.failed,
      errors := job.errors ++ ["任务被用户取消"],
      completed_at_set := true }, ?_, rfl, rfl, ?_, rfl⟩
    · show _ ∈ dictInsert st.completed_jobs _
      unfold dictInsert
      exact List.mem_append_right _ (by simp)
    · exact List.mem_append_right _ (by simp)
  · intro α β st jid hfind
    unfold cancelJob
    rw [hfind]
    exact ⟨rfl, rfl, rfl, rfl⟩

/-- C8 witness: the amended theorem applied to a concrete active job
(`True`, marked failed) and a concrete queued-only job (`False`). -/
theorem cancel_job_amended_witness :
    (cancelJob bpActiveState "j1").1 = true ∧
    (cancelJob bpQueuedState "j1").1 = false := by
  constructor
  · exact (cancel_job_amended.1 Nat Nat bpActiveState "j1" activeJob
      (by decide)).1
  · exact (cancel_job_amended.2 Nat Nat bpQueuedState "j1" (by decide)).1

/-- `ExportMetadata` (src/export/data_exporter.py lines 18-29), reduced
to the fields the claims speak about (paths, sizes, checksums and
timestamps are file-system artefacts). -/
structure ExportMetadata where
  format_type : String
  record_count : Nat
  compression : Option String
  deriving Repr, DecidableEq

/-- An element of the list handed to an exporter: either one of the
caller's records or the synthetic `export_info` record prepended by
`export_data` (lines 393-405), which carries the original record count
and the format name. -/
inductive ExportItem (α : Type) where
  | item (a : α)
  | info (record_count : Nat) (format : String)

/-- `JSONExporter.export` (lines 62-96): always succeeds;
`record_count = len(data)` of the list it is handed. -/
def jsonExport {α : Type} (data : List (ExportItem α)) :
    Except String ExportMetadata :=
  .ok ⟨"json", data.length, none⟩

/-- `CSVExporter.export` (lines 99-158): raises on an empty list,
otherwise `record_count = len(data)`. -/
def csvExport {α : Type} (data : List (ExportItem α)) :
    Except String ExportMetadata :=
  match data with
  | [] => .error "没有数据可导出"
  | _ :: _ => .ok ⟨"csv", data.length, none⟩

/-- `ExcelExporter.export` (lines 189-238). -/
def xlsxExport {α : Type} (data : List (ExportItem α)) :
    Except String ExportMetadata :=
  .ok ⟨"xlsx", data.length, none⟩

/-- `XMLExporter.export` (lines 241-284). -/
def xmlExport {α : Type} (data : List (ExportItem α)) :
    Except String ExportMetadata :=
  .ok ⟨"xml", data.length, none⟩

/-- The `self.exporters` table of `DataExportManager` (lines 359-364). -/
def exporterFor {α : Type} (fmt : String) :
    Option (List (ExportItem α) → Except String ExportMetadata) :=
  if fmt = "json" then some jsonExport
  else if fmt = "csv" then some csvExport
  else if fmt = "xlsx" then some xlsxExport
  else if fmt = "xml" then some xmlExport
  else none

/-- `CompressedExporter.export_compressed` with `compression_type =
"gzip"` (lines 310-348): run the base exporter, then update the
compression field of its metadata (the record count is untouched). -/
def exportCompressed {α : Type}
    (base : List (ExportItem α) → Except String ExportMetadata)
    (data : List (ExportItem α)) : Except String ExportMetadata :=
  (base data).map (fun m => { m with compression := some "gzip" })

/-- The per-format list built inside the `export_data` loop (lines
393-405): a copy of the records, with the `export_info` record
inserted at index 0 when metadata inclusion is on. -/
def exportListFor {α : Type} (data : List α) (im : Bool) (fmt : String) :
    List (ExportItem α) :=
  if im then ExportItem.info data.length fmt :: data.map ExportItem.item
  else data.map ExportItem.item

/-- The format loop of `DataExportManager.export_data` (lines 385-420):
unsupported formats are skipped with a warning; a failing exporter is
caught and skipped; successful metadata is collected in order. -/
def exportFormatsLoop {α : Type} (data : List α) (compress im : Bool) :
    List String → List ExportMetadata
  | [] => []
  | fmt :: rest =>
    match (exporterFor fmt :
        Option (List (ExportItem α) → Except String ExportMetadata)) with
    | none => exportFormatsLoop data compress im rest
    | some ex =>
      match (if compress then exportCompressed ex (exportListFor data im fmt)
             else ex (exportListFor data im fmt)) with
      | .error _ => exportFormatsLoop data compress im rest
      | .ok m => m :: exportFormatsLoop data compress im rest

/-- `DataExportManager.export_data` (lines 370-423): raises on an empty
input, else runs the format loop; the second component is the caller's
list after the call (the `export_info` insertion happens on the copy,
line 394). -/
def exportData {α : Type} (data : List α) (formats : List String)
    (compress im : Bool) :
    Except String (List ExportMetadata × List α) :=
  match data with
  | [] => .error "没有数据可导出"
  | _ :: _ => .ok (exportFormatsLoop data compress im formats, data)

theorem exporter_record_count {α : Type} (fmt : String)
    (ex : List (ExportItem α) → Except String ExportMetadata)
    (hex : exporterFor fmt = some ex) :
    ∀ (l : List (ExportItem α)) (m : ExportMetadata),
      ex l = .ok m → m.record_count = l.length := by
  intro l m hm
  unfold exporterFor at hex
  split_ifs at hex
  all_goals injection hex with hex
  all_goals subst hex
  · injection hm with hm
    rw [← hm]
  · cases l with
    | nil => cases hm
    | cons x xs =>
      injection hm with hm
      rw [← hm]
  · injection hm with hm
    rw [← hm]
  · injection hm with hm
    rw [← hm]

theorem exportFormatsLoop_count {α : Type} (data : List α)
    (compress : Bool) :
    ∀ (formats : List String) (m : ExportMetadata),
      m ∈ exportFormatsLoop data compress true formats →
      m.record_count = data.length + 1 := by
  intro formats
  induction formats with
  | nil => intro m hm; cases hm
  | cons fmt rest ih =>
    intro m hm
    unfold exportFormatsLoop at hm
    cases hex : (exporterFor fmt :
        Option (List (ExportItem α) → Except String ExportMetadata)) with
    | none =>
      rw [hex] at hm
      exact ih m hm
    | some ex =>
      rw [hex] at hm
      dsimp only at hm
      have hlen : (exportListFor data true fmt).length = data.length + 1 := by
        simp [exportListFor]
      cases hres : (if compress
          then exportCompressed ex (exportListFor data true fmt)
          else ex (exportListFor data true fmt)) with
      | error e =>
        rw [hres] at hm
        dsimp only at hm
        exact ih m hm
      | ok m0 =>
        rw [hres] at hm
        dsimp only at hm
        rcases List.mem_cons.mp hm with heq | htail
        · subst heq
          by_cases hc : compress
          · rw [if_pos hc] at hres
            unfold exportCompressed at hres
            cases hb : ex (exportListFor data true fmt) with
            | error e => rw [hb] at hres; cases hres
            | ok mb =>
              rw [hb] at hres
              injection hres with hres
              rw [← hres]
              show mb.record_count = _
              rw [exporter_record_count fmt ex hex _ mb hb, hlen]
          · rw [if_neg hc] at hres
            rw [exporter_record_count fmt ex hex _ m hres, hlen]
        · exact ih m htail

/-- C5: exporting a non-empty list of `N` records with
`include_metadata = true` gives every produced `ExportMetadata` a
`record_count` of `N + 1` (the records plus the prepended
`export_info` record), and the caller's list comes through the call
unmodified; exporting 5 records to JSON yields `record_count = 6`. -/
theorem export_metadata_record_count :
    (∀ (α : Type) (data : List α) (formats : List String) (compress : Bool),
        data ≠ [] →
        exportData data formats compress true =
          .ok (exportFormatsLoop data compress true formats, data) ∧
        ∀ m ∈ exportFormatsLoop data compress true formats,
          m.record_count = data.length + 1) ∧
    exportData ["r1", "r2", "r3", "r4", "r5"] ["json"] false true =
      .ok ([⟨"json", 6, none⟩], ["r1", "r2", "r3", "r4", "r5"]) := by
  refine ⟨?_, by rfl⟩
  intro α data formats compress hne
  refine ⟨?_, exportFormatsLoop_count data compress formats⟩
  cases data with
  | nil => exact absurd rfl hne
  | cons x xs => rfl

/-- C5 witness: the general clause applied to five records over the
default `[csv, json]`-like format request with compression on. -/
theorem export_metadata_record_count_witness :
    (["r1", "r2", "r3", "r4", "r5"] : List String) ≠ [] ∧
    exportData ["r1", "r2", "r3", "r4", "r5"] ["csv", "json"] true true =
      .ok (exportFormatsLoop ["r1", "r2", "r3", "r4", "r5"] true true
            ["csv", "json"],
          ["r1", "r2", "r3", "r4", "r5"]) := by
  exact ⟨by decide,
    (export_metadata_record_count.1 String ["r1", "r2", "r3", "r4", "r5"]
      ["csv", "json"] true (by decide)).1⟩

/-- `OrchestrationState` (src/orchestrator/drama_orchestrator.py
lines 23-34). -/
inductive OrchState where
  | idle | initializing | collecting | processing | storing | exporting
  | maintenance | error | stopping | stopped
  deriving Repr, DecidableEq

/-- `CollectionJob` (lines 37-54) reduced to the fields claim C6 speaks
about: the state, whether `end_time` was assigned, and the error
list. -/
structure CollectionJob where
  state : OrchState
  end_time_set : Bool
  errors : List String
  deriving Repr, DecidableEq

/-- Everything `run_collection_job` leaves behind: the job record, the
sequence of states assigned to `job.state` (in assignment order,
starting with the construction state `collecting`), the
returned-or-raised outcome, and the `current_job` slot after the
`finally` block. -/
structure JobRunResult where
  job : CollectionJob
  trace : List OrchState
  outcome : Except String Unit
  current : Option CollectionJob

/-- `DramaOrchestrator.run_collection_job` (lines 157-219) as a
function of each phase's outcome:

* `collectOutcome` — `_collect_data` (lines 222-267): `.ok es` returns
  with the per-item detail-failure messages `es` appended to the job's
  errors, `.error e` raises;
* `processOutcome` — `_process_data` (lines 269-325, appends no job
  errors): `.error e` raises;
* `storeOutcome` — `_store_data` (lines 327-344): on a storage
  exception it appends `数据存储失败: e` and re-raises, and the outer
  handler appends `str(e)` again (line 211);
* `exportOutcome` — `_export_data` (lines 346-392) catches its own
  exceptions: `some e` appends `数据导出失败: e` and continues.

The outer `except` (lines 208-216) sets state `error`, sets
`end_time`, appends the message and re-raises; the `finally`
(lines 218-219) always clears `current_job`. -/
def runCollectionJob (exportEnabled : Bool)
    (collectOutcome : Except String (List String))
    (processOutcome : Except String Unit)
    (storeOutcome : Except String Unit)
    (exportOutcome : Option String) : JobRunResult :=
  match collectOutcome with
  | .error e =>
    ⟨⟨.error, true, [e]⟩, [.collecting, .error], .error e, none⟩
  | .ok detailErrs =>
    match processOutcome with
    | .error e =>
      ⟨⟨.error, true, detailErrs ++ [e]⟩,
       [.collecting, .processing, .error], .error e, none⟩
    | .ok _ =>
      match storeOutcome with
      | .error e =>
        ⟨⟨.error, true, detailErrs ++ ["数据存储失败: " ++ e, e]⟩,
         [.collecting, .processing, .storing, .error], .error e, none⟩
      | .ok _ =>
        if exportEnabled then
          match exportOutcome with
          | some e =>
            ⟨⟨.idle, true, detailErrs ++ ["数据导出失败: " ++ e]⟩,
             [.collecting, .processing, .storing, .exporting, .idle],
             .ok (), none⟩
          | none =>
            ⟨⟨.idle, true, detailErrs⟩,
             [.collecting, .processing, .storing, .exporting, .idle],
             .ok (), none⟩
        else
          ⟨⟨.idle, true, detailErrs⟩,
           [.collecting, .processing, .storing, .idle], .ok (), none⟩

/-- C6: a fully successful `run_collection_job` passes through
`collecting → processing → storing → (exporting when enabled) → idle`
and ends idle with `end_time` set and no errors; when the storage step
raises, the job ends in state `error` with non-empty errors and a set
`end_time` and the exception propagates; in every case the
`current_job` slot is cleared afterwards. -/
theorem orchestrator_job_lifecycle :
    (∀ exportEnabled : Bool,
      runCollectionJob exportEnabled (.ok []) (.ok ()) (.ok ()) none =
        ⟨⟨.idle, true, []⟩,
         [.collecting, .processing, .storing] ++
           (if exportEnabled then [.exporting] else []) ++ [.idle],
         .ok (), none⟩) ∧
    (∀ (exportEnabled : Bool) (msg : String) (detailErrs : List String)
        (exportOutcome : Option String),
      (runCollectionJob exportEnabled (.ok detailErrs) (.ok ())
          (.error msg) exportOutcome).job.state = .error ∧
      (runCollectionJob exportEnabled (.ok detailErrs) (.ok ())
          (.error msg) exportOutcome).job.errors ≠ [] ∧
      (runCollectionJob exportEnabled (.ok detailErrs) (.ok ())
          (.error msg) exportOutcome).job.end_time_set = true ∧
      (runCollectionJob exportEnabled (.ok detailErrs) (.ok ())
          (.error msg) exportOutcome).trace =
        [.collecting, .processing, .storing, .error] ∧
      (runCollectionJob exportEnabled (.ok detailErrs) (.ok ())
          (.error msg) exportOutcome).outcome = .error msg ∧
      (runCollectionJob exportEnabled (.ok detailErrs) (.ok ())
          (.error msg) exportOutcome).current = none) := by
  constructor
  · intro exportEnabled
    cases exportEnabled <;> rfl
  · intro exportEnabled msg detailErrs exportOutcome
    refine ⟨rfl, ?_, rfl, rfl, rfl, rfl⟩
    simp [runCollectionJob]

/-- `DatabaseConfig` (src/config/config_manager.py lines 41-51), the
fields the validation pass reads. -/
structure DatabaseConfigM where
  host : String
  port : Int
  deriving Repr, DecidableEq

/-- `CacheConfig` (lines 54-63), the fields the validation pass reads. -/
structure CacheConfigM where
  enabled : Bool
  host : String
  deriving Repr, DecidableEq

/-- `ProcessingConfig` (lines 29-38), the fields the validation pass
reads. -/
structure ProcessingConfigM where
  validation_level : String
  batch_size : Int
  deriving Repr, DecidableEq

/-- `SchedulerConfig` (lines 82-90), the field the validation pass
reads. -/
structure SchedulerConfigM where
  collection_interval_hours : Int
  deriving Repr, DecidableEq

/-- `ExportConfig` (lines 93-101), the field the validation pass
reads. -/
structure ExportConfigM where
  export_formats : List String
  deriving Repr, DecidableEq

/-- `SystemConfig` (lines 104-125) restricted to the sub-configurations
`_validate_config` examines. -/
structure SystemConfigM where
  database : DatabaseConfigM
  cache : CacheConfigM
  processing : ProcessingConfigM
  scheduler : SchedulerConfigM
  exportCfg : ExportConfigM
  deriving Repr, DecidableEq

/-- The dataclass defaults (lines 29-125). -/
def defaultSystemConfig : SystemConfigM :=
  ⟨⟨"localhost", 27017⟩, ⟨true, "localhost"⟩, ⟨"moderate", 10⟩, ⟨6⟩,
   ⟨["json", "csv"]⟩⟩

/-- A partial update as consumed by `_update_config_from_dict` /
`_update_dataclass_from_dict` (lines 242-272): present keys replace the
corresponding attribute, absent keys leave it alone. -/
structure ConfigUpdate where
  database_host : Option String
  database_port : Option Int
  cache_enabled : Option Bool
  cache_host : Option String
  processing_validation_level : Option String
  processing_batch_size : Option Int
  scheduler_collection_interval_hours : Option Int
  export_formats : Option (List String)
  deriving Repr

/-- The update with no keys. -/
def emptyUpdate : ConfigUpdate :=
  ⟨none, none, none, none, none, none, none, none⟩

/-- `_update_config_from_dict` (lines 242-266): merge the nested
dict-like fields, replacing each present scalar. -/
def applyUpdate (c : SystemConfigM) (u : ConfigUpdate) : SystemConfigM :=
  ⟨⟨u.database_host.getD c.database.host, u.database_port.getD c.database.port⟩,
   ⟨u.cache_enabled.getD c.cache.enabled, u.cache_host.getD c.cache.host⟩,
   ⟨u.processing_validation_level.getD c.processing.validation_level,
    u.processing_batch_size.getD c.processing.batch_size⟩,
   ⟨u.scheduler_collection_interval_hours.getD
      c.scheduler.collection_interval_hours⟩,
   ⟨u.export_formats.getD c.exportCfg.export_formats⟩⟩

/-- The hard-error list of `ConfigManager._validate_config`
(lines 274-311); the cache/export checks only produce warnings and
never raise. -/
def configErrors (c : SystemConfigM) : List String :=
  (if c.database.host = "" then ["数据库主机地址不能为空"] else []) ++
  (if c.database.port ≤ 0 ∨ c.database.port > 65535
   then ["数据库端口无效"] else []) ++
  (if c.processing.batch_size ≤ 0 then ["批处理大小必须大于0"] else []) ++
  (if c.processing.validation_level ∈ ["strict", "moderate", "lenient"]
   then [] else ["验证级别无效"]) ++
  (if c.scheduler.collection_interval_hours ≤ 0
   then ["收集间隔必须大于0"] else [])

/-- `ConfigManager._validate_config`: raise `ValueError` with the
joined message when any hard error is present. -/
def validateConfig (c : SystemConfigM) : Except String Unit :=
  match configErrors c with
  | [] => .ok ()
  | errors =>
    .error ("配置验证失败:\n" ++
      String.intercalate "\n" (errors.map (fun e => "- " ++ e)))

deriving instance DecidableEq for Except

/-- The manager state `update_config` touches: the in-memory config and
the snapshot history. -/
structure ConfigManagerState where
  config : SystemConfigM
  config_history : List SystemConfigM
  deriving Repr, DecidableEq

/-- `ConfigManager.update_config` (lines 325-339): snapshot the current
config into history, apply the update to the in-memory config, then
re-validate — a validation failure raises but nothing is rolled
back. -/
def updateConfig (st : ConfigManagerState) (u : ConfigUpdate) :
    Except String Unit × ConfigManagerState :=
  let st1 : ConfigManagerState :=
    ⟨st.config, st.config_history ++ [st.config]⟩
  let st2 : ConfigManagerState :=
    ⟨applyUpdate st1.config u, st1.config_history⟩
  (validateConfig st2.config, st2)

/-- Did the update call return (rather than raise)? -/
def updateOkB : Except String Unit → Bool
  | .ok _ => true
  | .error _ => false

/-- The invalid partial update `{processing: {batch_size: 0}}`. -/
def badBatchSizeUpdate : ConfigUpdate :=
  { emptyUpdate with processing_batch_size := some 0 }

/-- C7 counterexample: updating `processing.batch_size` to `0` on the
default configuration raises, but the in-memory configuration is NOT
left unchanged — it retains the invalid `batch_size = 0` (the update
is applied before validation and never rolled back,
config_manager.py lines 325-339). -/
theorem config_update_counterexample :
    updateOkB (updateConfig ⟨defaultSystemConfig, []⟩
      badBatchSizeUpdate).1 = false ∧
    (updateConfig ⟨defaultSystemConfig, []⟩
      badBatchSizeUpdate).2.config ≠ defaultSystemConfig ∧
    (updateConfig ⟨defaultSystemConfig, []⟩
      badBatchSizeUpdate).2.config.processing.batch_size = 0 ∧
    defaultSystemConfig.processing.batch_size = 10 := by
  refine ⟨by decide, by decide, by decide, by decide⟩

/-- C7 (amended): an `update_config` call whose merged result violates
a hard constraint raises (`ValueError`), but the manager's in-memory
configuration is left holding the applied (invalid) update — only the
pre-update snapshot in `config_history` preserves the old value; the
update is not rejected in the state-preserving sense. -/
theorem config_update_amended :
    ∀ (st : ConfigManagerState) (u : ConfigUpdate) (e : String),
      validateConfig (applyUpdate st.config u) = .error e →
      (updateConfig st u).1 = .error e ∧
      (updateConfig st u).2.config = applyUpdate st.config u ∧
      (updateConfig st u).2.config_history =
        st.config_history ++ [st.config] := by
  intro st u e hv
  exact ⟨hv, rfl, rfl⟩

/-- C7 witness: the amended theorem applied to the default
configuration and the `batch_size = 0` update. -/
theorem config_update_amended_witness :
    (updateConfig ⟨defaultSystemConfig, []⟩ badBatchSizeUpdate).1 =
      .error "配置验证失败:\n- 批处理大小必须大于0" ∧
    (updateConfig ⟨defaultSystemConfig, []⟩ badBatchSizeUpdate).2.config =
      applyUpdate defaultSystemConfig badBatchSizeUpdate := by
  have h := config_update_amended ⟨defaultSystemConfig, []⟩
    badBatchSizeUpdate "配置验证失败:\n- 批处理大小必须大于0" (by decide)
  exact ⟨h.1, h.2.1⟩

/-- The `high` tension keyword tier of
`EnhancedTextProcessor._calculate_dramatic_tension`
(src/processors/enhanced_text_processor.py lines 268-281). -/
def tensionHigh : List String :=
  ["突然", "急忙", "惊讶", "震惊", "危险", "紧急", "关键"]

/-- The `medium` tension keyword tier. -/
def tensionMedium : List String :=
  ["担心", "焦虑", "紧张", "期待", "希望", "害怕"]

/-- The `low` tension keyword tier. -/
def tensionLow : List String :=
  ["平静", "安详", "温和", "舒缓", "轻松", "愉快"]

/-- `sum(1 for word in tier if word in text)`. -/
def countHits (words : List String) (text : String) : Nat :=
  words.countP (fun w => strContainsSub text w)

/-- `EnhancedTextProcessor._calculate_dramatic_tension`
(lines 268-281): `(3·high + 2·medium − low) / len(text) · 100`, clamped
to `[0, 10]`.  Python raises on an empty sentence (division by zero);
the caller only passes sentences of length ≥ 5. -/
def calculateDramaticTension (text : String) : ℚ :=
  let h := countHits tensionHigh text
  let m := countHits tensionMedium text
  let l := countHits tensionLow text
  let score : ℚ :=
    ((((h : ℤ) * 3 + (m : ℤ) * 2 - (l : ℤ) : ℤ) : ℚ) /
      ((text.length : ℤ) : ℚ)) * 100
  max 0 (min 10 score)

/-- The worked example: a 10-character sentence containing exactly one
high-tier keyword (`突然`) and no medium/low-tier keywords. -/
def tensionSentence : String := "突然下了一场大雨啊呀"

/-- C9: the dramatic tension equals
`clip((3·high + 2·medium − low)/len·100, 0, 10)` over the three fixed
keyword tiers; a sentence with exactly one high hit and no medium/low
hits scores `clip(300/len, 0, 10)`, and the 10-character example
scores exactly 10. -/
theorem dramatic_tension_formula :
    (∀ s : String, 0 < s.length →
      calculateDramaticTension s =
        clip ((3 * (countHits tensionHigh s : ℚ) +
               2 * (countHits tensionMedium s : ℚ) -
               (countHits tensionLow s : ℚ)) / (s.length : ℚ) * 100)
          0 10) ∧
    (∀ s : String, countHits tensionHigh s = 1 →
      countHits tensionMedium s = 0 → countHits tensionLow s = 0 →
      calculateDramaticTension s = clip (300 / (s.length : ℚ)) 0 10) ∧
    (tensionSentence.length = 10 ∧
     calculateDramaticTension tensionSentence = 10) := by
  have hgen : ∀ s : String,
      calculateDramaticTension s =
        clip ((3 * (countHits tensionHigh s : ℚ) +
               2 * (countHits tensionMedium s : ℚ) -
               (countHits tensionLow s : ℚ)) / (s.length : ℚ) * 100)
          0 10 := by
    intro s
    unfold calculateDramaticTension clip
    push_cast
    ring_nf
  refine ⟨fun s _ => hgen s, ?_, by decide, ?_⟩
  · intro s h1 h2 h3
    rw [hgen s, h1, h2, h3]
    norm_num
    congr 1
    ring
  · have h1 : countHits tensionHigh tensionSentence = 1 := by decide
    have h2 : countHits tensionMedium tensionSentence = 0 := by decide
    have h3 : countHits tensionLow tensionSentence = 0 := by decide
    have hlen : tensionSentence.length = 10 := by decide
    rw [hgen tensionSentence, h1, h2, h3, hlen]
    norm_num [clip]

/-- C9 witness: the formula clauses applied to the concrete
10-character sentence. -/
theorem dramatic_tension_formula_witness :
    0 < tensionSentence.length ∧
    calculateDramaticTension tensionSentence =
      clip (300 / (tensionSentence.length : ℚ)) 0 10 := by
  exact ⟨by decide, dramatic_tension_formula.2.1 tensionSentence
    (by decide) (by decide) (by decide)⟩
